import Mathlib

/-!
Verification of the OshirO location-based offers marketplace.

Shallow embedding of the repository's data model and operations:
the mobile client screens (CustomerScreen, OffersScreen, AuthScreen,
ProfileScreen, AdminScreen, MerchantScreen) are embedded from the
TypeScript source; the REST backend handlers (nearby discovery, offer
activity, discounted-price derivation) are not part of the source tree,
so they are modelled from the specification where noted.
-/

namespace Oshiro

/-! ## Geometry and records for nearby discovery -/

/-- A latitude/longitude pair, with coordinates as rationals. -/
structure GeoPoint where
  lat : ℚ
  lon : ℚ
  deriving DecidableEq

/-- A stored business/offer record as seen by the nearby-discovery
pipeline: an identifier, a category and a location. -/
structure NearbyRecord where
  rid : Nat
  category : String
  loc : GeoPoint
  deriving DecidableEq

/-- Modelled from the spec: the optional category filter of the
`/api/discover/nearby` and `/api/offers/nearby` handlers ("optionally
filter by category").  `none` means no category restriction. -/
def matchesCategories (cats : Option (List String)) (c : String) : Bool :=
  match cats with
  | none => true
  | some cs => cs.contains c

/-- Ordering of distance-annotated records by their distance component;
the backend sorts ascending by distance. -/
def distLE (a b : NearbyRecord × ℚ) : Prop := a.2 ≤ b.2

instance : DecidableRel distLE := fun a b => inferInstanceAs (Decidable (a.2 ≤ b.2))

instance : IsTotal (NearbyRecord × ℚ) distLE := ⟨fun a b => le_total a.2 b.2⟩

instance : IsTrans (NearbyRecord × ℚ) distLE := ⟨fun _ _ _ h h2 => le_trans h h2⟩

/-- Modelled from the spec: the nearby-discovery operation of the
backend (the handlers for `/api/discover/nearby` and
`/api/offers/nearby` are absent from the source tree).  Per the spec:
"filter records whose haversine distance from query point is ≤ radius;
sort ascending by distance; optionally filter by category;
paginate/limit."  The great-circle distance function itself is external
to the stored records, so it is passed as the parameter `dist`;
instantiating `dist` with the haversine distance yields the modelled
handler. -/
def nearbyQuery (dist : GeoPoint → GeoPoint → ℚ) (q : GeoPoint) (radius : ℚ)
    (cats : Option (List String)) (lim : Nat) (recs : List NearbyRecord) :
    List (NearbyRecord × ℚ) :=
  ((((recs.filter (fun r => matchesCategories cats r.category)).map
      (fun r => (r, dist q r.loc))).filter
      (fun p => decide (p.2 ≤ radius))).insertionSort distLE).take lim

/-- C1: every record returned by the nearby-discovery operation carries
its distance from the query point, that distance is at most the
requested radius, and the returned list is sorted by non-decreasing
distance. -/
theorem nearby_within_radius_sorted (dist : GeoPoint → GeoPoint → ℚ) (q : GeoPoint)
    (radius : ℚ) (cats : Option (List String)) (lim : Nat) (recs : List NearbyRecord)
    (p : NearbyRecord × ℚ) (hp : p ∈ nearbyQuery dist q radius cats lim recs) :
    p.2 = dist q p.1.loc ∧ p.2 ≤ radius ∧
      List.Sorted distLE (nearbyQuery dist q radius cats lim recs) := by
  have hsorted : List.Sorted distLE (nearbyQuery dist q radius cats lim recs) := by
    unfold nearbyQuery
    exact List.Pairwise.sublist (List.take_sublist _ _)
      (List.sorted_insertionSort distLE _)
  have hmem : p ∈ (((recs.filter (fun r => matchesCategories cats r.category)).map
      (fun r => (r, dist q r.loc))).filter (fun p => decide (p.2 ≤ radius))) := by
    have h1 := List.mem_of_mem_take hp
    exact (List.mem_insertionSort distLE).mp h1
  have hle : p.2 ≤ radius := by
    have := (List.mem_filter.mp hmem).2
    exact of_decide_eq_true this
  have hmap : p ∈ ((recs.filter (fun r => matchesCategories cats r.category)).map
      (fun r => (r, dist q r.loc))) := (List.mem_filter.mp hmem).1
  obtain ⟨r, _, hr⟩ := List.mem_map.mp hmap
  refine ⟨?_, hle, hsorted⟩
  rw [← hr]

/-- Concrete instantiation of `nearby_within_radius_sorted`. -/
theorem nearby_within_radius_sorted_witness :
    ((⟨0, "food", ⟨1, 1⟩⟩, (1 : ℚ)) : NearbyRecord × ℚ).2 =
        (fun _ _ => (1 : ℚ)) (⟨0, 0⟩ : GeoPoint) (⟨1, 1⟩ : GeoPoint) ∧
      ((⟨0, "food", ⟨1, 1⟩⟩, (1 : ℚ)) : NearbyRecord × ℚ).2 ≤ 2 ∧
      List.Sorted distLE (nearbyQuery (fun _ _ => (1 : ℚ)) ⟨0, 0⟩ 2 none 5
        [⟨0, "food", ⟨1, 1⟩⟩]) :=
  nearby_within_radius_sorted (fun _ _ => (1 : ℚ)) ⟨0, 0⟩ 2 none 5
    [⟨0, "food", ⟨1, 1⟩⟩] (⟨0, "food", ⟨1, 1⟩⟩, (1 : ℚ)) (by decide)

/-! ## Offer activity (backend, modelled from spec) -/

/-- An offer's fields relevant to activity: the end of its validity
window (epoch milliseconds), the optional usage cap `max_uses` and the
usage counter `current_uses`.  Matches the `Offer` interface of
`OffersScreen.tsx` (`valid_until`, `max_uses?`, `current_uses`). -/
structure OfferRec where
  oid : Nat
  valid_until : Nat
  max_uses : Option Nat
  current_uses : Nat
  deriving DecidableEq

/-- Modelled from the spec: the backend's activity predicate for offers
(the handler filtering active offers is absent from the source tree).
Per the spec: an offer is "active" iff current time precedes its
validity end and usage counter is below any configured max. -/
def isActive (now : Nat) (o : OfferRec) : Bool :=
  decide (now < o.valid_until) &&
    (match o.max_uses with
     | none => true
     | some m => decide (o.current_uses < m))

/-- Modelled from the spec: the active-offer listing returned by the
backend filters its stored offers by the activity predicate. -/
def activeOffers (now : Nat) (offers : List OfferRec) : List OfferRec :=
  offers.filter (isActive now)

/-- C2: an offer is active iff the current time precedes its
`valid_until` and, when a `max_uses` cap is configured, `current_uses`
is strictly below it; an offer failing the predicate never appears in
the active-offer listing. -/
theorem offer_active_iff (now : Nat) (o : OfferRec) (offers : List OfferRec) :
    (isActive now o = true ↔
      now < o.valid_until ∧ ∀ m, o.max_uses = some m → o.current_uses < m) ∧
      (isActive now o = false → o ∉ activeOffers now offers) := by
  constructor
  · unfold isActive
    rcases h : o.max_uses with - | m
    · simp
    · simp
  · intro hfail hmem
    have := (List.mem_filter.mp hmem).2
    rw [hfail] at this
    exact Bool.false_ne_true this

/-- Concrete instantiation of `offer_active_iff`: an exhausted offer
(`current_uses = max_uses`) is inactive and filtered out. -/
theorem offer_active_iff_witness :
    (isActive 10 ⟨1, 100, some 5, 5⟩ = true ↔
      10 < 100 ∧ ∀ m, (some 5 : Option Nat) = some m → 5 < m) ∧
      (isActive 10 ⟨1, 100, some 5, 5⟩ = false →
        (⟨1, 100, some 5, 5⟩ : OfferRec) ∉ activeOffers 10 [⟨1, 100, some 5, 5⟩]) :=
  offer_active_iff 10 ⟨1, 100, some 5, 5⟩ [⟨1, 100, some 5, 5⟩]

/-! ## Discounted price (backend, modelled from spec) -/

/-- The two discount types appearing throughout the client
(`discount_type === 'percentage'` versus fixed amount). -/
inductive DiscountType where
  | percentage
  | fixed
  deriving DecidableEq

/-- Modelled from the spec: derivation of an offer's `discounted_price`
by the backend (absent from the source tree).  Per the spec and claim:
the discounted price derives deterministically from discount type/value
and original price; the percentage type scales the original price by the
percentage, the fixed type subtracts the discount value. -/
def discountedPrice (t : DiscountType) (value orig : ℚ) : ℚ :=
  match t with
  | DiscountType.percentage => orig - orig * value / 100
  | DiscountType.fixed => orig - value

/-- C3: `discounted_price` is a deterministic function of the triple
(discount type, discount value, original price): equal triples give
equal prices; the percentage type scales the original price by the
percentage and the fixed type subtracts the discount value. -/
theorem discountedPrice_deterministic (t t' : DiscountType) (v v' p p' : ℚ)
    (ht : t = t') (hv : v = v') (hp : p = p') :
    discountedPrice t v p = discountedPrice t' v' p' ∧
      discountedPrice DiscountType.percentage v p = p * ((100 - v) / 100) ∧
      discountedPrice DiscountType.fixed v p = p - v := by
  subst ht hv hp
  refine ⟨rfl, ?_, rfl⟩
  unfold discountedPrice
  ring

/-- Concrete instantiation of `discountedPrice_deterministic`:
a 20% discount on 250 gives 200. -/
theorem discountedPrice_deterministic_witness :
    discountedPrice DiscountType.percentage 20 250 =
        discountedPrice DiscountType.percentage 20 250 ∧
      discountedPrice DiscountType.percentage 20 250 = 250 * ((100 - 20) / 100) ∧
      discountedPrice DiscountType.fixed 20 250 = 250 - 20 :=
  discountedPrice_deterministic DiscountType.percentage DiscountType.percentage
    20 20 250 250 rfl rfl rfl

/-! ## Login UI step machine (`components/AuthScreen` in the source) -/

/-- The `step` state of `AuthScreen`:
`useState<'method' | 'input' | 'verify'>('method')`. -/
inductive AuthStep where
  | method
  | input
  | verify
  deriving DecidableEq

/-- The `authMethod` state: `'phone' | 'email'`. -/
inductive AuthMethod where
  | phone
  | email
  deriving DecidableEq

/-- The screen state of `AuthScreen` relevant to step transitions. -/
structure AuthScreenState where
  step : AuthStep
  authMethod : Option AuthMethod
  contact : String
  deriving DecidableEq

/-- JS `!s.trim()` (falsy after trimming): the string is all
whitespace. -/
def trimEmpty (s : String) : Bool := s.toList.all Char.isWhitespace

/-- JS `haystack.includes(needle)`: substring containment. -/
def jsIncludes (haystack needle : String) : Bool :=
  decide (needle.toList <:+: haystack.toList)

/-- The validation guards of `handleSendOTP`: a contact method must be
chosen, the contact must be nonempty after trimming, a phone contact
must start with `+`, and an email contact must contain `@`. -/
def contactValid (m : Option AuthMethod) (contact : String) : Bool :=
  match m with
  | none => false
  | some AuthMethod.phone => !trimEmpty contact && contact.startsWith "+"
  | some AuthMethod.email => !trimEmpty contact && jsIncludes contact "@"

/-- The user/network events that drive `AuthScreen`.  `sendOTP ok`
is a press of the Send OTP (or Resend OTP) button together with the
outcome `ok` of the `sendOTP` request. -/
inductive AuthEvent where
  | selectMethod (m : AuthMethod)
  | setContact (c : String)
  | sendOTP (ok : Bool)
  | backToMethod
  | backToInput
  | verifyOTP (ok : Bool)
  deriving DecidableEq

/-- One step of the `AuthScreen` UI.  Each handler is only reachable
from the step whose view renders its button: `handleMethodSelect` from
the method-selection view, `handleSendOTP` and the back arrow from the
contact-input view, and the OTP form, its back arrow and Resend OTP
from the verification view.  `handleSendOTP` moves to `verify` only
when its validation guards pass and the request succeeds; a resend from
the verification view sets the step to `verify` again. -/
def authScreenStep (s : AuthScreenState) (e : AuthEvent) : AuthScreenState :=
  match s.step, e with
  | AuthStep.method, AuthEvent.selectMethod m =>
      { s with authMethod := some m, step := AuthStep.input }
  | AuthStep.input, AuthEvent.setContact c => { s with contact := c }
  | AuthStep.input, AuthEvent.backToMethod => { s with step := AuthStep.method }
  | AuthStep.input, AuthEvent.sendOTP ok =>
      if contactValid s.authMethod s.contact && ok then
        { s with step := AuthStep.verify }
      else s
  | AuthStep.verify, AuthEvent.backToInput => { s with step := AuthStep.input }
  | AuthStep.verify, AuthEvent.sendOTP _ => s
  | AuthStep.verify, AuthEvent.verifyOTP _ => s
  | _, _ => s

/-- The initial state of `AuthScreen`: step `method`, no method chosen,
empty contact. -/
def authScreenInit : AuthScreenState :=
  { step := AuthStep.method, authMethod := none, contact := "" }

/-- Running `AuthScreen` from its initial state over a list of events. -/
def runAuthScreen (es : List AuthEvent) : AuthScreenState :=
  es.foldl authScreenStep authScreenInit

lemma authScreenStep_from_method (s : AuthScreenState) (e : AuthEvent)
    (h : s.step = AuthStep.method) :
    (authScreenStep s e).step = AuthStep.method ∨
      (authScreenStep s e).step = AuthStep.input := by
  obtain ⟨st, am, c⟩ := s
  simp only at h
  subst h
  cases e <;> simp [authScreenStep]

lemma authScreenStep_into_verify (s : AuthScreenState) (e : AuthEvent)
    (h : s.step = AuthStep.input)
    (hv : (authScreenStep s e).step = AuthStep.verify) :
    ∃ ok, e = AuthEvent.sendOTP ok ∧ ok = true ∧
      contactValid s.authMethod s.contact = true := by
  obtain ⟨st, am, c⟩ := s
  simp only at h
  subst h
  cases e with
  | sendOTP ok =>
    refine ⟨ok, rfl, ?_⟩
    by_cases hg : (contactValid am c && ok) = true
    · rcases (Bool.and_eq_true _ _).mp hg with ⟨h1, h2⟩
      exact ⟨h2, h1⟩
    · simp only [authScreenStep] at hv
      rw [if_neg hg] at hv
      exact absurd hv (by simp)
  | selectMethod m => simp [authScreenStep] at hv
  | setContact c2 => simp [authScreenStep] at hv
  | backToMethod => simp [authScreenStep] at hv
  | backToInput => simp [authScreenStep] at hv
  | verifyOTP ok => simp [authScreenStep] at hv

lemma runAuthScreen_verify_has_input :
    ∀ es, (runAuthScreen es).step = AuthStep.verify →
      ∃ es₁ es₂, es = es₁ ++ es₂ ∧ (runAuthScreen es₁).step = AuthStep.input := by
  intro es
  induction es using List.reverseRecOn with
  | nil => intro h; exact absurd h (by simp [runAuthScreen, authScreenInit])
  | append_singleton l e ih =>
    intro h
    have h2 : (authScreenStep (runAuthScreen l) e).step = AuthStep.verify := by
      rw [runAuthScreen, List.foldl_append] at h
      exact h
    rcases hstep : (runAuthScreen l).step with - | - | -
    · rcases authScreenStep_from_method (runAuthScreen l) e hstep with h1 | h1 <;>
        exact absurd (h1.symm.trans h2) (by simp)
    · exact ⟨l, [e], rfl, hstep⟩
    · obtain ⟨es₁, es₂, heq, hin⟩ := ih hstep
      exact ⟨es₁, es₂ ++ [e], by rw [heq, List.append_assoc], hin⟩

/-- C4: the login UI is the linear step machine method → input →
verify: a step of `AuthScreen` taken in the `method` step lands in
`method` or `input` only; the `verify` step is entered from `input`
only by a Send OTP press whose request succeeds and whose validation
guards pass; and any event sequence that ends in the `verify` step
passes through the `input` step (and starts in the `method` step). -/
theorem authScreen_linear_steps (s : AuthScreenState) (e : AuthEvent)
    (es : List AuthEvent) :
    (s.step = AuthStep.method →
      (authScreenStep s e).step = AuthStep.method ∨
        (authScreenStep s e).step = AuthStep.input) ∧
      (s.step = AuthStep.input → (authScreenStep s e).step = AuthStep.verify →
        ∃ ok, e = AuthEvent.sendOTP ok ∧ ok = true ∧
          contactValid s.authMethod s.contact = true) ∧
      ((runAuthScreen es).step = AuthStep.verify →
        (∃ es₁ es₂, es = es₁ ++ es₂ ∧ (runAuthScreen es₁).step = AuthStep.input) ∧
          (runAuthScreen []).step = AuthStep.method) :=
  ⟨authScreenStep_from_method s e,
   authScreenStep_into_verify s e,
   fun h => ⟨runAuthScreen_verify_has_input es h, rfl⟩⟩

/-- A concrete `AuthScreen` state in the `input` step with a valid
phone contact, used for the instantiation below. -/
def authProbeState : AuthScreenState :=
  { step := AuthStep.input, authMethod := some AuthMethod.phone,
    contact := "+919182653234" }

/-- A concrete event sequence that reaches the `verify` step. -/
def authProbeEvents : List AuthEvent :=
  [AuthEvent.selectMethod AuthMethod.phone,
   AuthEvent.setContact "+919182653234",
   AuthEvent.sendOTP true]

/-- Concrete instantiation of `authScreen_linear_steps`, at a state in
the `input` step with a valid phone contact and a successful send. -/
theorem authScreen_linear_steps_witness :
    (authProbeState.step = AuthStep.method →
      (authScreenStep authProbeState (AuthEvent.sendOTP true)).step = AuthStep.method ∨
        (authScreenStep authProbeState (AuthEvent.sendOTP true)).step =
          AuthStep.input) ∧
      (authProbeState.step = AuthStep.input →
        (authScreenStep authProbeState (AuthEvent.sendOTP true)).step =
          AuthStep.verify →
        ∃ ok, AuthEvent.sendOTP true = AuthEvent.sendOTP ok ∧ ok = true ∧
          contactValid authProbeState.authMethod authProbeState.contact = true) ∧
      ((runAuthScreen authProbeEvents).step = AuthStep.verify →
        (∃ es₁ es₂, authProbeEvents = es₁ ++ es₂ ∧
          (runAuthScreen es₁).step = AuthStep.input) ∧
          (runAuthScreen []).step = AuthStep.method) :=
  authScreen_linear_steps authProbeState (AuthEvent.sendOTP true) authProbeEvents

/-! ## Client API requests and their authentication mechanism

Inventory of every request the client issues against the backend
(`EXPO_PUBLIC_BACKEND_URL`), embedded from the axios call sites of the
source.  Path parameters are written `:id`.  The source contains two
byte-identical copies of `AdminScreen`; its four request sites are
listed once. -/

/-- How a request authenticates: a bearer token in the `Authorization`
header, an `admin_key` query parameter, or nothing. -/
inductive AuthMech where
  | bearer
  | adminKeyQuery
  | noAuth
  deriving DecidableEq

/-- The endpoint families named by the spec and the claim. -/
inductive ApiCategory where
  | authn
  | users
  | businesses
  | offers
  | discovery
  | admin
  | payments
  deriving DecidableEq

/-- One axios call site: the component and handler, HTTP verb,
endpoint, endpoint family and authentication mechanism. -/
structure ApiRequest where
  site : String
  verb : String
  endpoint : String
  cat : ApiCategory
  mech : AuthMech
  deriving DecidableEq

/-- The admin statistics request of `AdminScreen.authenticateAdmin`:
`GET /api/admin/stats?admin_key=...`, no `Authorization` header. -/
def adminStatsRequest : ApiRequest :=
  ⟨"AdminScreen.authenticateAdmin", "GET", "/api/admin/stats",
    ApiCategory.admin, AuthMech.adminKeyQuery⟩

/-- The business-services listing of `MerchantScreen.loadBusinessServices`:
`GET /api/businesses/:id/services` with no credentials at all. -/
def businessServicesRequest : ApiRequest :=
  ⟨"MerchantScreen.loadBusinessServices", "GET", "/api/businesses/:id/services",
    ApiCategory.businesses, AuthMech.noAuth⟩

/-- Every backend request the client issues, per axios call site. -/
def clientRequests : List ApiRequest :=
  [⟨"CustomerScreen.loadNearbyServices", "POST", "/api/discover/nearby",
      ApiCategory.discovery, AuthMech.bearer⟩,
   ⟨"CustomerScreen.loadNearbyOffers", "POST", "/api/offers/nearby",
      ApiCategory.offers, AuthMech.bearer⟩,
   ⟨"OffersScreen.loadNearbyOffers", "POST", "/api/offers/nearby",
      ApiCategory.offers, AuthMech.bearer⟩,
   ⟨"OffersScreen.loadMyOffers", "GET", "/api/offers/my",
      ApiCategory.offers, AuthMech.bearer⟩,
   ⟨"OffersScreen.handleCreateOffer.listBusinesses", "GET", "/api/businesses/my",
      ApiCategory.businesses, AuthMech.bearer⟩,
   ⟨"OffersScreen.handleCreateOffer", "POST", "/api/businesses/:id/offers",
      ApiCategory.offers, AuthMech.bearer⟩,
   ⟨"AuthContext.fetchUserProfile", "GET", "/api/users/profile",
      ApiCategory.users, AuthMech.bearer⟩,
   ⟨"AuthContext.sendOTP", "POST", "/api/auth/send-otp",
      ApiCategory.authn, AuthMech.noAuth⟩,
   ⟨"AuthContext.verifyOTP", "POST", "/api/auth/verify-otp",
      ApiCategory.authn, AuthMech.noAuth⟩,
   ⟨"AuthContext.updatePreferences", "PUT", "/api/users/preferences",
      ApiCategory.users, AuthMech.bearer⟩,
   ⟨"AuthContext.updateLocation", "PUT", "/api/users/location",
      ApiCategory.users, AuthMech.bearer⟩,
   ⟨"MerchantScreen.loadMyBusinesses", "GET", "/api/businesses/my",
      ApiCategory.businesses, AuthMech.bearer⟩,
   businessServicesRequest,
   ⟨"MerchantScreen.handleCreateBusiness", "POST", "/api/businesses",
      ApiCategory.businesses, AuthMech.bearer⟩,
   ⟨"MerchantScreen.handleCreateService", "POST", "/api/businesses/:id/services",
      ApiCategory.businesses, AuthMech.bearer⟩,
   adminStatsRequest,
   ⟨"AdminScreen.loadRecentActivity", "GET", "/api/admin/recent-activity",
      ApiCategory.admin, AuthMech.adminKeyQuery⟩,
   ⟨"AdminScreen.loadCustomers", "GET", "/api/admin/customers",
      ApiCategory.admin, AuthMech.adminKeyQuery⟩,
   ⟨"AdminScreen.loadMerchants", "GET", "/api/admin/merchants",
      ApiCategory.admin, AuthMech.adminKeyQuery⟩,
   ⟨"MerchantScreen2.loadMyBusinesses", "GET", "/api/businesses/my",
      ApiCategory.businesses, AuthMech.bearer⟩,
   ⟨"MerchantScreen2.loadMyOffers", "GET", "/api/offers/my",
      ApiCategory.offers, AuthMech.bearer⟩,
   ⟨"MerchantScreen2.updateBusiness", "PUT", "/api/businesses/:id",
      ApiCategory.businesses, AuthMech.bearer⟩,
   ⟨"MerchantScreen2.createBusiness", "POST", "/api/businesses",
      ApiCategory.businesses, AuthMech.bearer⟩,
   ⟨"MerchantScreen2.handleCreateOffer", "POST", "/api/businesses/:id/offers",
      ApiCategory.offers, AuthMech.bearer⟩,
   ⟨"PaymentModal.createPaymentOrder", "POST", "/api/payments/create-order",
      ApiCategory.payments, AuthMech.bearer⟩,
   ⟨"PaymentModal.completePayment", "POST", "/api/payments/:id/complete",
      ApiCategory.payments, AuthMech.bearer⟩]

/-- A request is protected in the sense of the claim when it targets
the profile (users), businesses, offers, discovery or admin endpoint
families. -/
def isProtected (r : ApiRequest) : Bool :=
  match r.cat with
  | ApiCategory.users => true
  | ApiCategory.businesses => true
  | ApiCategory.offers => true
  | ApiCategory.discovery => true
  | ApiCategory.admin => true
  | ApiCategory.authn => false
  | ApiCategory.payments => false

/-- C5 counterexample: the admin statistics request is a protected
request that does not carry bearer-token authentication (it uses the
`admin_key` query parameter), so not every protected request uses a
bearer token. -/
theorem protected_bearer_counterexample :
    adminStatsRequest ∈ clientRequests ∧ isProtected adminStatsRequest = true ∧
      adminStatsRequest.mech ≠ AuthMech.bearer ∧
      ¬∀ r ∈ clientRequests, isProtected r = true → r.mech = AuthMech.bearer := by
  decide

/-- C5 (amended): every protected request carries a bearer token in the
`Authorization` header, except that the admin endpoints authenticate
with the `admin_key` query parameter and the business-services listing
is sent without credentials. -/
theorem protected_auth_mechanism (r : ApiRequest) (hr : r ∈ clientRequests)
    (hp : isProtected r = true) :
    r.mech = (if r.cat = ApiCategory.admin then AuthMech.adminKeyQuery
      else if r.site = "MerchantScreen.loadBusinessServices" then AuthMech.noAuth
      else AuthMech.bearer) := by
  have h : ∀ x ∈ clientRequests, isProtected x = true →
      x.mech = (if x.cat = ApiCategory.admin then AuthMech.adminKeyQuery
        else if x.site = "MerchantScreen.loadBusinessServices" then AuthMech.noAuth
        else AuthMech.bearer) := by decide
  exact h r hr hp

/-- Concrete instantiation of `protected_auth_mechanism` at the admin
statistics request. -/
theorem protected_auth_mechanism_witness :
    adminStatsRequest.mech =
      (if adminStatsRequest.cat = ApiCategory.admin then AuthMech.adminKeyQuery
        else if adminStatsRequest.site = "MerchantScreen.loadBusinessServices" then
          AuthMech.noAuth
        else AuthMech.bearer) :=
  protected_auth_mechanism adminStatsRequest (by decide) (by decide)

/-! ## Nearby loading handlers of the customer and offers screens -/

/-- A business as stored by `CustomerScreen` (the fields the search
filter reads). -/
structure Business where
  bid : Nat
  business_name : String
  description : Option String
  deriving DecidableEq

/-- The `CustomerScreen` state touched by `loadNearbyServices`. -/
structure CustomerScreenState where
  businesses : List Business
  loading : Bool
  refreshing : Bool
  deriving DecidableEq

/-- The `OffersScreen` state touched by `loadNearbyOffers`. -/
structure OffersScreenState where
  offers : List OfferRec
  loading : Bool
  deriving DecidableEq

/-- The outcome of an awaited axios call. -/
inductive FetchOutcome (α : Type) where
  | ok (data : α)
  | err
  deriving DecidableEq

/-- An observable effect of a handler: a backend request or an alert. -/
inductive ClientEffect where
  | request (endpoint : String)
  | alert (title msg : String)
  deriving DecidableEq

/-- Number of backend requests among a handler's effects. -/
def countRequests (effs : List ClientEffect) : Nat :=
  (effs.filter (fun e =>
    match e with
    | ClientEffect.request _ => true
    | ClientEffect.alert _ _ => false)).length

/-- Number of alerts among a handler's effects. -/
def countAlerts (effs : List ClientEffect) : Nat :=
  (effs.filter (fun e =>
    match e with
    | ClientEffect.request _ => false
    | ClientEffect.alert _ _ => true)).length

/-- The search filter of `loadNearbyServices`: when `searchQuery.trim()`
is truthy, keep businesses whose name or description contains the query,
case-insensitively. -/
def filterBySearch (q : String) (bs : List Business) : List Business :=
  if trimEmpty q then bs
  else bs.filter (fun b =>
    jsIncludes b.business_name.toLower q.toLower ||
      (match b.description with
       | some d => jsIncludes d.toLower q.toLower
       | none => false))

/-- The handler `CustomerScreen.loadNearbyServices` with location available: one
discovery request is issued; on success the search-filtered payload is
stored; on failure one error alert is shown and the business list is
left alone; the `finally` block clears `loading` and `refreshing`. -/
def loadNearbyServicesRun (st : CustomerScreenState) (q : String)
    (res : FetchOutcome (List Business)) :
    CustomerScreenState × List ClientEffect :=
  match res with
  | FetchOutcome.ok data =>
      ({ st with
          businesses := filterBySearch q data
          loading := false
          refreshing := false },
        [ClientEffect.request "/api/discover/nearby"])
  | FetchOutcome.err =>
      ({ st with loading := false, refreshing := false },
        [ClientEffect.request "/api/discover/nearby",
         ClientEffect.alert "Error" "Failed to discover nearby services"])

/-- The handler `OffersScreen.loadNearbyOffers` with location available: one offers
request; on success `response.data.offers || []` is stored; on failure
one error alert and the offers list is left alone; the `finally` block
clears `loading`. -/
def loadNearbyOffersRun (st : OffersScreenState)
    (res : FetchOutcome (Option (List OfferRec))) :
    OffersScreenState × List ClientEffect :=
  match res with
  | FetchOutcome.ok data =>
      ({ st with offers := data.getD [], loading := false },
        [ClientEffect.request "/api/offers/nearby"])
  | FetchOutcome.err =>
      ({ st with loading := false },
        [ClientEffect.request "/api/offers/nearby",
         ClientEffect.alert "Error" "Failed to load nearby offers"])

/-- C6: on a failed nearby-discovery request the client retries
nothing: exactly one request was issued, exactly one error alert is
shown, the previously displayed businesses/offers stay unchanged, and
the loading (and refreshing) flags are cleared. -/
theorem nearby_error_no_retry (st : CustomerScreenState) (q : String)
    (ost : OffersScreenState) :
    (loadNearbyServicesRun st q FetchOutcome.err).1.businesses = st.businesses ∧
      (loadNearbyServicesRun st q FetchOutcome.err).1.loading = false ∧
      (loadNearbyServicesRun st q FetchOutcome.err).1.refreshing = false ∧
      countRequests (loadNearbyServicesRun st q FetchOutcome.err).2 = 1 ∧
      countAlerts (loadNearbyServicesRun st q FetchOutcome.err).2 = 1 ∧
      (loadNearbyOffersRun ost FetchOutcome.err).1.offers = ost.offers ∧
      (loadNearbyOffersRun ost FetchOutcome.err).1.loading = false ∧
      countRequests (loadNearbyOffersRun ost FetchOutcome.err).2 = 1 ∧
      countAlerts (loadNearbyOffersRun ost FetchOutcome.err).2 = 1 :=
  ⟨rfl, rfl, rfl, rfl, rfl, rfl, rfl, rfl, rfl⟩

/-! ## Offer creation: the validity window default -/

/-- Modelled from the spec: the external JS `Date.toISOString`,
rendered as an injective encoding of the epoch-millisecond timestamp
(the `Date` API is not part of the repository). -/
def toIsoString (ms : Nat) : String := "ISO-" ++ toString ms

lemma toIsoString_ne_empty (ms : Nat) : toIsoString ms ≠ "" := by
  intro h
  have hlen := congrArg String.length h
  rw [toIsoString, String.length_append] at hlen
  have h4 : ("ISO-" : String).length = 4 := rfl
  have h0 : ("" : String).length = 0 := rfl
  omega

/-- The `valid_until` computation of `handleCreateOffer` (both the
`OffersScreen` and the merchant screen):
`offerForm.valid_until || new Date(Date.now() + 30*24*60*60*1000).toISOString()`
(a JS string is falsy exactly when empty). -/
def effectiveValidUntil (formValidUntil : String) (nowMs : Nat) : String :=
  if formValidUntil = "" then toIsoString (nowMs + 30 * 24 * 60 * 60 * 1000)
  else formValidUntil

/-- C7: every created offer carries a validity end: the submitted
`valid_until` is never empty; when the form field is blank it is
exactly the creation time plus 30 days (30 * 24 * 60 * 60 * 1000
milliseconds), and otherwise it is the merchant's field verbatim. -/
theorem offer_valid_until_thirty_days (form : String) (now : Nat) :
    effectiveValidUntil form now ≠ "" ∧
      (form = "" →
        effectiveValidUntil form now = toIsoString (now + 30 * 24 * 60 * 60 * 1000)) ∧
      (form ≠ "" → effectiveValidUntil form now = form) := by
  unfold effectiveValidUntil
  by_cases h : form = ""
  · rw [if_pos h]
    exact ⟨toIsoString_ne_empty _, fun _ => rfl, fun hne => absurd h hne⟩
  · rw [if_neg h]
    exact ⟨h, fun he => absurd he h, fun _ => rfl⟩

/-- Concrete instantiation of `offer_valid_until_thirty_days` at a
blank form field and creation time 1000. -/
theorem offer_valid_until_thirty_days_witness :
    effectiveValidUntil "" 1000 ≠ "" ∧
      ("" = "" →
        effectiveValidUntil "" 1000 = toIsoString (1000 + 30 * 24 * 60 * 60 * 1000)) ∧
      ("" ≠ "" → effectiveValidUntil "" 1000 = "") :=
  offer_valid_until_thirty_days "" 1000

/-! ## Phone-only login screen (`AuthScreen_new.tsx`) -/

/-- The `step` state of `AuthScreen_new`:
`useState<'input' | 'verify'>('input')`. -/
inductive PhoneAuthStep where
  | input
  | verify
  deriving DecidableEq

/-- The screen state of `AuthScreen_new` read by its handlers. -/
structure PhoneAuthState where
  step : PhoneAuthStep
  phoneNumber : String
  otpCode : String
  deriving DecidableEq

/-- An observable effect of an `AuthScreen_new` handler. -/
inductive AuthEffect where
  | alert (title msg : String)
  | sendRequest (contact : String)
  | verifyRequest (contact otp : String)
  deriving DecidableEq

/-- The backend requests among a handler's effects. -/
def authRequests (effs : List AuthEffect) : List AuthEffect :=
  effs.filter (fun e =>
    match e with
    | AuthEffect.alert _ _ => false
    | AuthEffect.sendRequest _ => true
    | AuthEffect.verifyRequest _ _ => true)

/-- The 10-decimal-digit validation of `handleSendOTP`:
`phoneNumber.length !== 10 || !/^\d+$/.test(phoneNumber)` rejects. -/
def validPhone (s : String) : Bool :=
  s.length == 10 && s.toList.all Char.isDigit

/-- The handler `handleSendOTP` of `AuthScreen_new`: rejects a blank number, then a
number that is not exactly 10 decimal digits; otherwise issues the
send-OTP request for `+91` followed by the digits, moving to the
verify step when the request succeeds. -/
def handleSendOTPNew (st : PhoneAuthState) (ok : Bool) :
    PhoneAuthState × List AuthEffect :=
  if trimEmpty st.phoneNumber then
    (st, [AuthEffect.alert "Error" "Please enter your phone number"])
  else if !validPhone st.phoneNumber then
    (st, [AuthEffect.alert "Error" "Please enter a valid 10-digit phone number"])
  else if ok then
    ({ st with step := PhoneAuthStep.verify },
      [AuthEffect.sendRequest ("+91" ++ st.phoneNumber)])
  else
    (st, [AuthEffect.sendRequest ("+91" ++ st.phoneNumber)])

/-- The handler `handleVerifyOTP` of `AuthScreen_new`: rejects a blank code, then any
code other than the literal string 1234, with an alert and no request;
otherwise issues the verify-OTP request for `+91` plus the entered
number. -/
def handleVerifyOTPNew (st : PhoneAuthState) : PhoneAuthState × List AuthEffect :=
  if trimEmpty st.otpCode then
    (st, [AuthEffect.alert "Error" "Please enter the OTP code"])
  else if st.otpCode ≠ "1234" then
    (st, [AuthEffect.alert "Error" "Invalid OTP. Please enter 1234"])
  else
    (st, [AuthEffect.verifyRequest ("+91" ++ st.phoneNumber) st.otpCode])

/-- C8: the verify-OTP request goes out only when the entered code is
exactly "1234"; on any other code the handler leaves the state alone
and shows exactly one alert with no request; and the send-OTP request
goes out only for a number of exactly 10 decimal digits, sent as `+91`
followed by those digits. -/
theorem phoneAuth_guards (st : PhoneAuthState) (ok : Bool) :
    (authRequests (handleVerifyOTPNew st).2 ≠ [] → st.otpCode = "1234") ∧
      (st.otpCode ≠ "1234" →
        (handleVerifyOTPNew st).1 = st ∧ authRequests (handleVerifyOTPNew st).2 = [] ∧
          ∃ t m, (handleVerifyOTPNew st).2 = [AuthEffect.alert t m]) ∧
      (authRequests (handleSendOTPNew st ok).2 ≠ [] →
        st.phoneNumber.length = 10 ∧ st.phoneNumber.toList.all Char.isDigit = true ∧
          authRequests (handleSendOTPNew st ok).2 =
            [AuthEffect.sendRequest ("+91" ++ st.phoneNumber)]) := by
  refine ⟨?_, ?_, ?_⟩
  · intro hreq
    unfold handleVerifyOTPNew at hreq
    by_cases h1 : trimEmpty st.otpCode
    · rw [if_pos h1] at hreq
      exact absurd rfl hreq
    · rw [if_neg h1] at hreq
      by_cases h2 : st.otpCode = "1234"
      · exact h2
      · rw [if_pos h2] at hreq
        exact absurd rfl hreq
  · intro hne
    unfold handleVerifyOTPNew
    by_cases h1 : trimEmpty st.otpCode
    · rw [if_pos h1]
      exact ⟨rfl, rfl, "Error", "Please enter the OTP code", rfl⟩
    · rw [if_neg h1, if_pos hne]
      exact ⟨rfl, rfl, "Error", "Invalid OTP. Please enter 1234", rfl⟩
  · intro hreq
    unfold handleSendOTPNew at hreq ⊢
    by_cases h1 : trimEmpty st.phoneNumber
    · rw [if_pos h1] at hreq
      exact absurd rfl hreq
    · rw [if_neg h1] at hreq
      by_cases h2 : validPhone st.phoneNumber
      · have hv := (Bool.and_eq_true _ _).mp h2
        have hlen : st.phoneNumber.length = 10 := by simpa using hv.1
        refine ⟨hlen, hv.2, ?_⟩
        rw [if_neg h1]
        have h2f : (!validPhone st.phoneNumber) = false := by rw [h2]; rfl
        rw [if_neg (by rw [h2f]; exact Bool.false_ne_true)]
        by_cases h3 : ok
        · rw [if_pos h3]
          rfl
        · rw [if_neg h3]
          rfl
      · have h2t : (!validPhone st.phoneNumber) = true := by
          rcases Bool.eq_false_or_eq_true (validPhone st.phoneNumber) with h | h
          · exact absurd h h2
          · rw [h]; rfl
        rw [if_pos h2t] at hreq
        exact absurd rfl hreq

/-- Concrete instantiation of `phoneAuth_guards` at a wrong OTP code
and a valid phone number. -/
theorem phoneAuth_guards_witness :
    ((⟨PhoneAuthStep.input, "9182653234", "0000"⟩ : PhoneAuthState).otpCode ≠ "1234" →
      (handleVerifyOTPNew ⟨PhoneAuthStep.input, "9182653234", "0000"⟩).1 =
          ⟨PhoneAuthStep.input, "9182653234", "0000"⟩ ∧
        authRequests (handleVerifyOTPNew
          ⟨PhoneAuthStep.input, "9182653234", "0000"⟩).2 = [] ∧
        ∃ t m, (handleVerifyOTPNew ⟨PhoneAuthStep.input, "9182653234", "0000"⟩).2 =
          [AuthEffect.alert t m]) ∧
      (authRequests (handleSendOTPNew
          ⟨PhoneAuthStep.input, "9182653234", "0000"⟩ true).2 ≠ [] →
        ("9182653234" : String).length = 10 ∧
          ("9182653234" : String).toList.all Char.isDigit = true ∧
          authRequests (handleSendOTPNew
            ⟨PhoneAuthStep.input, "9182653234", "0000"⟩ true).2 =
            [AuthEffect.sendRequest ("+91" ++ "9182653234")]) :=
  ⟨(phoneAuth_guards ⟨PhoneAuthStep.input, "9182653234", "0000"⟩ true).2.1,
   (phoneAuth_guards ⟨PhoneAuthStep.input, "9182653234", "0000"⟩ true).2.2⟩

/-! ## Category preferences (`ProfileScreen.togglePreference`) -/

/-- The handler `togglePreference` of `ProfileScreen`: when the category is already in
the user's preferences it is filtered out, otherwise it is appended:
`user.preferences.includes(id) ? preferences.filter(p => p !== id)
: [...preferences, id]`. -/
def togglePreference (prefs : List String) (categoryId : String) : List String :=
  if prefs.contains categoryId then prefs.filter (fun p => p != categoryId)
  else prefs ++ [categoryId]

/-- C9: one toggle inverts the toggled category's membership and keeps
every other category's membership; toggling the same category twice
restores the membership of every category. -/
theorem togglePreference_involutive (prefs : List String) (c : String) :
    (c ∈ togglePreference prefs c ↔ c ∉ prefs) ∧
      (∀ x, x ≠ c → (x ∈ togglePreference prefs c ↔ x ∈ prefs)) ∧
      (∀ x, x ∈ togglePreference (togglePreference prefs c) c ↔ x ∈ prefs) := by
  by_cases hc : c ∈ prefs
  · have h1 : togglePreference prefs c = prefs.filter (fun p => p != c) := by
      unfold togglePreference
      rw [if_pos (List.elem_eq_true_of_mem hc)]
    have hcnot : c ∉ prefs.filter (fun p => p != c) := by
      intro hmem
      have := (List.mem_filter.mp hmem).2
      simp at this
    have h2 : togglePreference (togglePreference prefs c) c =
        prefs.filter (fun p => p != c) ++ [c] := by
      rw [h1]
      unfold togglePreference
      rw [if_neg (by intro hcont; exact hcnot (List.mem_of_elem_eq_true hcont))]
    refine ⟨?_, ?_, ?_⟩
    · rw [h1]
      exact ⟨fun hmem => absurd hmem hcnot, fun hno => absurd hc hno⟩
    · intro x hx
      rw [h1]
      simp [List.mem_filter, hx]
    · intro x
      rw [h2]
      by_cases hxc : x = c
      · subst hxc
        simp [hc]
      · simp [List.mem_filter, hxc]
  · have h1 : togglePreference prefs c = prefs ++ [c] := by
      unfold togglePreference
      rw [if_neg (by intro hcont; exact hc (List.mem_of_elem_eq_true hcont))]
    have h2 : togglePreference (togglePreference prefs c) c =
        (prefs ++ [c]).filter (fun p => p != c) := by
      rw [h1]
      unfold togglePreference
      rw [if_pos (List.elem_eq_true_of_mem (by simp))]
    refine ⟨?_, ?_, ?_⟩
    · rw [h1]
      simp [hc]
    · intro x hx
      rw [h1]
      simp [hx]
    · intro x
      rw [h2]
      by_cases hxc : x = c
      · subst hxc
        simp [hc]
      · simp [List.mem_filter, hxc]

/-- Concrete instantiation of `togglePreference_involutive` over the
preference list [food, spa] and category clothing. -/
theorem togglePreference_involutive_witness :
    ("clothing" ∈ togglePreference ["food", "spa"] "clothing" ↔
      "clothing" ∉ (["food", "spa"] : List String)) ∧
      (∀ x, x ≠ "clothing" →
        (x ∈ togglePreference ["food", "spa"] "clothing" ↔
          x ∈ (["food", "spa"] : List String))) ∧
      (∀ x, x ∈ togglePreference (togglePreference ["food", "spa"] "clothing")
          "clothing" ↔ x ∈ (["food", "spa"] : List String)) :=
  togglePreference_involutive ["food", "spa"] "clothing"

/-! ## Radius presets (`CustomerScreen` and `OffersScreen`) -/

/-- One entry of the `RADIUS_OPTIONS` array of `CustomerScreen`. -/
structure RadiusOption where
  label : String
  value : Nat
  deriving DecidableEq

/-- The `RADIUS_OPTIONS` array: 500m, 1km, 2km, 5km. -/
def RADIUS_OPTIONS : List RadiusOption :=
  [⟨"500m", 500⟩, ⟨"1km", 1000⟩, ⟨"2km", 2000⟩, ⟨"5km", 5000⟩]

/-- The preset radius values. -/
def radiusValues : List Nat := RADIUS_OPTIONS.map (fun o => o.value)

/-- Pressing the i-th rendered radius chip runs
`setSelectedRadius(option.value)` for that option; there is no other
writer of `selectedRadius`. -/
def stepRadius (r : Nat) (i : Nat) : Nat :=
  match RADIUS_OPTIONS[i]? with
  | some o => o.value
  | none => r

/-- The `selectedRadius` state over a sequence of chip presses, from its initial
value `useState(2000)`. -/
def runRadius (presses : List Nat) : Nat :=
  presses.foldl stepRadius 2000

/-- The radius `OffersScreen.loadNearbyOffers` sends: the literal
`radius_meters: 2000`. -/
def offersScreenRadius : Nat := 2000

/-- C10: the customer screen's radius starts at 2000 and after any
sequence of chip presses is one of the four presets
{500, 1000, 2000, 5000}, and the offers screen always sends exactly
2000, itself a preset. -/
theorem radius_always_preset (presses : List Nat) :
    runRadius [] = 2000 ∧ runRadius presses ∈ radiusValues ∧
      offersScreenRadius = 2000 ∧ offersScreenRadius ∈ radiusValues := by
  refine ⟨rfl, ?_, rfl, by decide⟩
  induction presses using List.reverseRecOn with
  | nil => decide
  | append_singleton l i ih =>
    have hstep : runRadius (l ++ [i]) = stepRadius (runRadius l) i := by
      rw [runRadius, List.foldl_append]
      rfl
    rw [hstep]
    rcases h : RADIUS_OPTIONS[i]? with - | o
    · simpa [stepRadius, h] using ih
    · have hmem : o ∈ RADIUS_OPTIONS := by
        have := List.getElem?_mem h
        exact this
      simp only [stepRadius, h]
      exact List.mem_map_of_mem _ hmem

end Oshiro
